import Mathlib

/-!
Verification of the NestlyFlow backend business rules: a shallow embedding of
the task-title resolver, task CRUD, assistant tool dispatcher, dashboard
aggregation and password-reset flow, with theorems settling the stated
properties.  The database is modelled as an in-memory list of rows; each
definition names the Python function it embeds.
-/

/-- ASCII lowercasing, character by character: models Python str.lower() and
SQL LOWER as applied to task titles in crud.py (the titles in the claims are
ASCII, where both agree with Char.toLower). -/
def pyLower (s : String) : String := String.mk (s.data.map Char.toLower)

/-- Python sep.join(xs). -/
def pyJoin (sep : String) : List String → String
  | [] => ""
  | [x] => x
  | x :: y :: xs => x ++ sep ++ pyJoin sep (y :: xs)

/-- Is needle a prefix of haystack (boolean, over character lists)? -/
def prefixB : List Char → List Char → Bool
  | [], _ => true
  | _ :: _, [] => false
  | a :: as, b :: bs => a == b && prefixB as bs

/-- Does needle occur contiguously inside haystack (boolean)?  Used to state
"the message contains / quotes this title". -/
def infixB (needle : List Char) : List Char → Bool
  | [] => prefixB needle []
  | h :: t => prefixB needle (h :: t) || infixB needle t

/-- A row of the todos table (models.Todo).  The created/updated timestamps
are database-managed defaults and play no role in the verified claims, so
they are omitted; due_at is an epoch timestamp. -/
structure Todo where
  id : Nat
  title : String
  description : Option String := none
  completed : Bool := false
  due_at : Option Int := none
  priority : String := "low"
  category : String := "others"
  owner_id : Nat := 0
deriving DecidableEq

/-- schemas.TodoCreate (pydantic): title required, the rest optional with the
defaults priority low, category others. -/
structure TodoCreate where
  title : String
  description : Option String := none
  due_at : Option Int := none
  priority : String := "low"
  category : String := "others"
deriving DecidableEq

/-- schemas.TodoUpdate (pydantic): every field optional; none models a field
that was not supplied (pydantic exclude_unset semantics). -/
structure TodoUpdate where
  title : Option String := none
  description : Option String := none
  due_at : Option Int := none
  completed : Option Bool := none
  priority : Option String := none
  category : Option String := none
deriving DecidableEq

/-- crud.get_todos: db.query(Todo).filter(owner_id == user_id)
.offset(skip).limit(limit).all(). -/
def get_todos (store : List Todo) (user_id skip limit : Nat) : List Todo :=
  ((store.filter (fun t => t.owner_id == user_id)).drop skip).take limit

/-- crud.get_todos_by_title: case-insensitive exact-title lookup scoped to the
owner (filter(lower(Todo.title) == lower(title), owner_id == user_id).all()). -/
def get_todos_by_title (store : List Todo) (title : String) (user_id : Nat) : List Todo :=
  store.filter (fun t => pyLower t.title == pyLower title && t.owner_id == user_id)

/-- Does the owner already have a todo whose title matches s case-insensitively?
Models db.query(Todo).filter(lower(Todo.title) == lower(s), owner_id ==
user_id).first() being not None, as used in crud.create_user_todo. -/
def hasTitle (store : List Todo) (user_id : Nat) (s : String) : Bool :=
  store.any (fun t => pyLower t.title == pyLower s && t.owner_id == user_id)

/-- The candidate tried for a given counter in crud.create_user_todo:
the f-string "{original_title} ({counter})". -/
def suffixedTitle (original_title : String) (counter : Nat) : String :=
  original_title ++ " (" ++ Nat.repr counter ++ ")"

/-- The while-True suffix loop of crud.create_user_todo (lines 32-42),
step-indexed by fuel; none models running out of fuel (the loop itself never
gives up).  The store is not modified while the loop runs. -/
def suffixSearch (store : List Todo) (user_id : Nat) (original_title : String) : Nat → Nat → Option String
  | 0, _ => none
  | fuel + 1, counter =>
    if hasTitle store user_id (suffixedTitle original_title counter) then
      suffixSearch store user_id original_title fuel (counter + 1)
    else some (suffixedTitle original_title counter)

/-- The title-allocation logic inlined in crud.create_user_todo (lines 22-42);
the spec names it allocateUniqueTitle.  Fuel store.length + 1 is provably
sufficient (suffixSearch_allocates below), so create never actually sees none. -/
def allocateUniqueTitle (store : List Todo) (user_id : Nat) (requestedTitle : String) : Option String :=
  if hasTitle store user_id requestedTitle then
    suffixSearch store user_id requestedTitle (store.length + 1) 2
  else some requestedTitle

/-- The row inserted by crud.create_user_todo, Todo(**todo.dict(),
owner_id=user_id), with the title the resolver settled on and the
database-assigned primary key. -/
def mkRow (todo : TodoCreate) (user_id newId : Nat) (t : String) : Todo :=
  { id := newId, title := t, description := todo.description,
    completed := false, due_at := todo.due_at, priority := todo.priority,
    category := todo.category, owner_id := user_id }

/-- crud.create_user_todo: resolve the (possibly suffixed) title, then insert
the row.  Returns the created row and the new store. -/
def create_user_todo (store : List Todo) (todo : TodoCreate) (user_id newId : Nat) : Option (Todo × List Todo) :=
  match allocateUniqueTitle store user_id todo.title with
  | none => none
  | some t => some (mkRow todo user_id newId t, store ++ [mkRow todo user_id newId t])

/-- The value the chatbot or the PUT route passes to crud.update_user_todo as
its todo argument: routes/todos.py passes a pydantic TodoUpdate instance,
routes/chatbot.py passes the plain dict todo_update_schema.dict(exclude_unset=True). -/
inductive PyTodoArg where
  | model (u : TodoUpdate)
  | dict (u : TodoUpdate)
deriving DecidableEq

/-- A raised Python exception relevant to the embedded paths. -/
inductive PyErr where
  | attributeError
  | httpNotFound
deriving DecidableEq

/-- Python attribute call todo.model_dump(exclude_unset=True) inside
crud.update_user_todo: a pydantic model has the method; a plain dict does not,
so the call raises AttributeError. -/
def model_dump_exclude_unset : PyTodoArg → Except PyErr TodoUpdate
  | .model u => .ok u
  | .dict _ => .error .attributeError

/-- The setattr loop of crud.update_user_todo: only supplied fields mutate. -/
def applyUpdate (t : Todo) (u : TodoUpdate) : Todo :=
  { t with
    title := u.title.getD t.title,
    description := match u.description with | some d => some d | none => t.description,
    due_at := match u.due_at with | some d => some d | none => t.due_at,
    completed := u.completed.getD t.completed,
    priority := u.priority.getD t.priority,
    category := u.category.getD t.category }

/-- crud.update_user_todo (lines 56-82): find the row by id under the owner
scope (404 when absent), dump the supplied fields, apply them, persist.  The
case-insensitive title-collision check at lines 63-74 only computes a query
and then executes pass, so it has no effect and no representation here. -/
def update_user_todo (store : List Todo) (id : Nat) (todo : PyTodoArg) (user_id : Nat) : Except PyErr (Todo × List Todo) :=
  match store.find? (fun t => t.id == id && t.owner_id == user_id) with
  | none => .error .httpNotFound
  | some db_todo =>
    match model_dump_exclude_unset todo with
    | .error e => .error e
    | .ok update_data =>
      let t' := applyUpdate db_todo update_data
      .ok (t', store.map (fun x => if x.id == id && x.owner_id == user_id then t' else x))

/-- The arguments of an update_todo tool call in routes/chatbot.py; none
models an absent key.  due_at is modelled after the dateparser step, i.e. as
an already-parsed timestamp (the external NL date parser is out of scope). -/
structure UpdateArgs where
  original_title : Option String := none
  new_title : Option String := none
  description : Option String := none
  due_at : Option Int := none
  completed : Option Bool := none
  priority : Option String := none
  category : Option String := none
deriving DecidableEq

/-- update_data built in the update_todo branch: drop original_title and remap
new_title to title. -/
def updateDataOf (a : UpdateArgs) : TodoUpdate :=
  { title := a.new_title, description := a.description, due_at := a.due_at,
    completed := a.completed, priority := a.priority, category := a.category }

/-- The keys of clean_update_data, in pydantic field-declaration order. -/
def update_field_names (u : TodoUpdate) : List String :=
  (if u.title.isSome then ["title"] else []) ++
  (if u.description.isSome then ["description"] else []) ++
  (if u.due_at.isSome then ["due_at"] else []) ++
  (if u.completed.isSome then ["completed"] else []) ++
  (if u.priority.isSome then ["priority"] else []) ++
  (if u.category.isSome then ["category"] else [])

/-- allowed_priorities in routes/chatbot.py (a set; listed here in source
order, only membership matters). -/
def allowed_priorities : List String := ["low", "medium", "high"]

/-- allowed_categories in routes/chatbot.py. -/
def allowed_categories : List String := ["work", "personal", "study", "home", "health", "shopping", "others"]

/-- Is the supplied priority (if any) invalid? -/
def invalidPriority (u : TodoUpdate) : Bool :=
  match u.priority with
  | some p => !(allowed_priorities.contains p)
  | none => false

/-- Is the supplied category (if any) invalid? -/
def invalidCategory (u : TodoUpdate) : Bool :=
  match u.category with
  | some c => !(allowed_categories.contains c)
  | none => false

/-- The line printed for one task by the list_todos branch:
f"- {t.title} (Priority: {t.priority}, Category: {t.category}, Completed: {t.completed})"
(Python renders booleans as True/False). -/
def todoLine (t : Todo) : String :=
  "- " ++ t.title ++ " (Priority: " ++ t.priority ++ ", Category: " ++ t.category ++
    ", Completed: " ++ (if t.completed then "True" else "False") ++ ")"

/-- The disambiguation reply of the update_todo branch when several tasks match. -/
def disambiguationMsg (original_title : String) (titles : List String) : String :=
  "Multiple todos found with a title similar to '" ++ original_title ++
    "'. Please provide the exact title you wish to update from the following: " ++
    pyJoin (", ") (titles.map (fun t => "'" ++ t ++ "'"))

/-- The tool calls whose dispatcher branches the claims exercise. -/
inductive ChatAction where
  | list_todos
  | update_todo (args : UpdateArgs)
deriving DecidableEq

/-- execute_todo_action of routes/chatbot.py, for the list_todos and
update_todo branches (the create/delete branches are independent and not
needed by any claim).  current_user is the authenticated owner id, none when
not logged in.  Returns the reply text and the store after the call; the
surrounding except-Exception handler turns any raised error into the fixed
apology string, leaving the store as it was (the raise in
crud.update_user_todo happens before any mutation). -/
def execute_todo_action (action : ChatAction) (store : List Todo) (current_user : Option Nat) : String × List Todo :=
  match current_user with
  | none => ("You must be logged in to manage your to-do list. Please log in and try again.", store)
  | some uid =>
    match action with
    | .list_todos =>
      let todos := get_todos store uid 0 100
      if todos.isEmpty then ("You have no outstanding todos.", store)
      else ("Your todos:\n" ++ pyJoin ("\n") (todos.map todoLine), store)
    | .update_todo args =>
      match args.original_title with
      | none => ("Please provide the title of the todo you want to update.", store)
      | some original_title =>
        let update_data := updateDataOf args
        if invalidPriority update_data then
          ("Invalid priority '" ++ update_data.priority.getD "" ++
            "'. Allowed values are: " ++ pyJoin (", ") allowed_priorities ++ ".", store)
        else if invalidCategory update_data then
          ("Invalid category '" ++ update_data.category.getD "" ++
            "'. Allowed values are: " ++ pyJoin (", ") allowed_categories ++ ".", store)
        else if update_field_names update_data = [] then
          ("Please provide at least one field to update (e.g., new title, description, due date, completed status, priority, or category).", store)
        else
          match get_todos_by_title store original_title uid with
          | [] => ("No todo found with title '" ++ original_title ++ "' for your account.", store)
          | [target] =>
            match update_user_todo store target.id (.dict update_data) uid with
            | .error _ => ("Sorry, I ran into an unexpected issue.", store)
            | .ok (updated, store') =>
              let fields := update_field_names update_data
              if fields.contains ("completed") && fields.length == 1 then
                ("Successfully marked '" ++ updated.title ++ "' as complete.", store')
              else
                ("Successfully updated '" ++ original_title ++ "'. Changed fields: " ++
                  pyJoin (", ") fields, store')
          | t1 :: t2 :: rest =>
            (disambiguationMsg original_title ((t1 :: t2 :: rest).map (fun x => x.title)), store)

/-- The owner-scoped rows, the base of every dashboard aggregate. -/
def ownerTodos (store : List Todo) (user_id : Nat) : List Todo :=
  store.filter (fun t => t.owner_id == user_id)

/-- A (category, count) pair of the dashboard payload (schemas.CategoryStat). -/
structure CategoryStat where
  category : String
  count : Nat
deriving DecidableEq

/-- crud.get_tasks_by_category: SQL GROUP BY category over the owner's rows —
each distinct category present, with the number of that owner's rows in it. -/
def get_tasks_by_category (store : List Todo) (user_id : Nat) : List CategoryStat :=
  ((ownerTodos store user_id).map (fun t => t.category)).dedup.map
    (fun c => { category := c, count := ((ownerTodos store user_id).filter (fun t => t.category == c)).length })

/-- The fixed list all_categories of routes/dashboard.py. -/
def all_categories : List String := ["work", "personal", "shopping", "health", "education", "others"]

/-- category_map.get(name, 0) of routes/dashboard.py. -/
def category_lookup (stats : List CategoryStat) (name : String) : Nat :=
  match stats.find? (fun cs => cs.category == name) with
  | some cs => cs.count
  | none => 0

/-- The categories field built by get_dashboard_data (routes/dashboard.py
lines 28-35): the fixed six-entry list, each entry looked up in the group-by
result and zero-filled when absent. -/
def get_dashboard_categories (store : List Todo) (user_id : Nat) : List CategoryStat :=
  all_categories.map
    (fun name => { category := name, count := category_lookup (get_tasks_by_category store user_id) name })

/-- A row of the users table (models.User), as far as the claims need it. -/
structure UserRec where
  id : Nat
  username : String
  email : String
  hashed_password : String
deriving DecidableEq

/-- A row of the password_reset_tokens table (models.PasswordResetToken).
The token column carries a unique constraint. -/
structure ResetToken where
  user_id : Nat
  token : String
  expires_at : Int
deriving DecidableEq

/-- The authentication-relevant database state. -/
structure AuthState where
  users : List UserRec
  tokens : List ResetToken
deriving DecidableEq

/-- Modelled from the spec: auth.get_password_hash, the opaque hashing
capability hash(password) -> digest (the auth module itself is not among the
repository's source files); no claim depends on its value. -/
def get_password_hash (password : String) : String := "$hash$" ++ password

/-- The outcome of POST /auth/reset-password. -/
inductive ResetConfirmResult where
  | noContent
  | badRequest (detail : String)
deriving DecidableEq

/-- routes/auth.py forgot_password: look the email up; whether or not a user
exists, answer 200 with the same message.  newToken models the random
secrets.token_urlsafe(32); the token row expires one hour from now; the
outbound email (and any failure of it) is swallowed and never alters the
response. -/
def forgot_password (st : AuthState) (email newToken : String) (now : Int) : (Nat × String) × AuthState :=
  match st.users.find? (fun u => u.email == email) with
  | none => ((200, "If your email is registered, a password reset link has been sent."), st)
  | some user =>
    ((200, "If your email is registered, a password reset link has been sent."),
     { st with tokens := st.tokens ++ [{ user_id := user.id, token := newToken, expires_at := now + 3600 }] })

/-- One step of reading a decimal numeral left to right (used only to prove
that Nat.repr is injective, i.e. that distinct counters give distinct
suffixed titles). -/
def decodeStep (a : Nat) (c : Char) : Nat := a * 10 + (c.toNat - 48)

/-- Read a decimal numeral back from its characters. -/
def decodeDigits (l : List Char) : Nat := l.foldl decodeStep 0

/-- A store with 101 tasks owned by user 1: the first hundred titled by their
index, the last titled zz. -/
def bigStore : List Todo :=
  (List.range 101).map (fun i => { id := i, title := if i == 100 then "zz" else Nat.repr i, owner_id := 1 })

/-- The 101st task of bigStore. -/
def zzTodo : Todo := { id := 100, title := "zz", owner_id := 1 }

/-- A store with one task, used at the chatbot update_todo failing input. -/
def c10_store : List Todo := [{ id := 1, title := "Buy milk", owner_id := 7 }]

/-- The failing input of the chatbot update_todo action: mark the single
matching task as not completed. -/
def c10_args : UpdateArgs := { original_title := some ("Buy milk"), completed := some false }

/-- routes/auth.py reset_password_confirm (lines 249-290): token must exist;
an expired token is deleted and rejected; otherwise the owning user's digest
is replaced and the token deleted.  Row deletion is modelled by filtering the
unique token column. -/
def reset_password_confirm (st : AuthState) (token new_password : String) (now : Int) : ResetConfirmResult × AuthState :=
  match st.tokens.find? (fun rt => rt.token == token) with
  | none => (.badRequest ("Invalid or expired token"), st)
  | some reset_token =>
    if reset_token.expires_at < now then
      (.badRequest ("Invalid or expired token"),
       { st with tokens := st.tokens.filter (fun rt => rt.token != token) })
    else
      match st.users.find? (fun u => u.id == reset_token.user_id) with
      | none => (.badRequest ("User not found"), st)
      | some _ =>
        (.noContent,
         { st with
            users := st.users.map (fun u =>
              if u.id == reset_token.user_id then { u with hashed_password := get_password_hash new_password } else u),
            tokens := st.tokens.filter (fun rt => rt.token != token) })

/-! Helper lemmas: lowercasing, decimal numerals, and the suffix search. -/

theorem pyLower_data (s : String) : (pyLower s).data = s.data.map Char.toLower := rfl

theorem pyLower_append (a b : String) : pyLower (a ++ b) = pyLower a ++ pyLower b := by
  apply String.ext
  simp [pyLower_data, String.data_append]

theorem data_length_of_pyLower_eq {a b : String} (h : pyLower a = pyLower b) :
    a.data.length = b.data.length := by
  have := congrArg (fun s => s.data.length) h
  simpa [pyLower_data] using this

theorem digitChar_toNat {m : Nat} (h : m < 10) : (Nat.digitChar m).toNat = 48 + m := by
  interval_cases m <;> rfl

theorem toDigitsCore_foldl :
    ∀ (fuel n : Nat) (acc : List Char), n < fuel →
      (Nat.toDigitsCore 10 fuel n acc).foldl decodeStep 0 = acc.foldl decodeStep n := by
  intro fuel
  induction fuel with
  | zero => intro n acc h; omega
  | succ f ih =>
    intro n acc h
    rw [Nat.toDigitsCore]
    by_cases h0 : n / 10 = 0
    · have hn : n < 10 := (Nat.div_eq_zero_iff (by norm_num)).mp h0
      simp only [h0, if_pos]
      simp [List.foldl, decodeStep, digitChar_toNat (Nat.mod_lt n (by norm_num)),
        Nat.mod_eq_of_lt hn]
      congr 1
      rw [digitChar_toNat hn]
      omega
    · have hge : 10 ≤ n := by
        by_contra hlt
        exact h0 (Nat.div_eq_of_lt (by omega))
      have hrec : n / 10 < f := by
        have h1 : n / 10 < n := Nat.div_lt_self (by omega) (by norm_num)
        omega
      simp only [h0, if_neg, ite_false]
      rw [ih (n / 10) (Nat.digitChar (n % 10) :: acc) hrec]
      simp [List.foldl, decodeStep, digitChar_toNat (Nat.mod_lt n (by norm_num))]
      congr 1
      omega

theorem decodeDigits_repr (n : Nat) : decodeDigits (Nat.repr n).data = n := by
  show (Nat.toDigits 10 n).foldl decodeStep 0 = n
  rw [Nat.toDigits, toDigitsCore_foldl (n + 1) n [] (Nat.lt_succ_self n)]
  rfl

theorem repr_injective_nat {k j : Nat} (h : Nat.repr k = Nat.repr j) : k = j := by
  have := congrArg (fun s => decodeDigits s.data) h
  simpa [decodeDigits_repr] using this

theorem toDigitsCore_toNat_lt :
    ∀ (fuel n : Nat) (acc : List Char), (∀ c ∈ acc, c.toNat < 65) →
      ∀ c ∈ Nat.toDigitsCore 10 fuel n acc, c.toNat < 65 := by
  intro fuel
  induction fuel with
  | zero => intro n acc hacc; simpa [Nat.toDigitsCore] using hacc
  | succ f ih =>
    intro n acc hacc c hc
    rw [Nat.toDigitsCore] at hc
    have hd : (Nat.digitChar (n % 10)).toNat < 65 := by
      rw [digitChar_toNat (Nat.mod_lt n (by norm_num))]
      omega
    by_cases h0 : n / 10 = 0
    · simp only [h0, if_pos] at hc
      rcases List.mem_cons.mp hc with h | h
      · subst h; exact hd
      · exact hacc c h
    · simp only [h0, if_neg, ite_false] at hc
      refine ih (n / 10) (Nat.digitChar (n % 10) :: acc) ?_ c hc
      intro d hdm
      rcases List.mem_cons.mp hdm with h | h
      · subst h; exact hd
      · exact hacc d h

theorem repr_toNat_lt (n : Nat) : ∀ c ∈ (Nat.repr n).data, c.toNat < 65 :=
  toDigitsCore_toNat_lt (n + 1) n [] (by simp)

theorem toLower_eq_self_of_lt {c : Char} (h : c.toNat < 65) : Char.toLower c = c := by
  unfold Char.toLower
  rw [if_neg]
  omega

theorem map_toLower_repr (n : Nat) :
    (Nat.repr n).data.map Char.toLower = (Nat.repr n).data := by
  rw [List.map_congr_left (fun c hc => toLower_eq_self_of_lt (repr_toNat_lt n c hc))]
  exact List.map_id _

theorem repr_data_ne_nil (n : Nat) : (Nat.repr n).data ≠ [] := by
  intro h
  have hd := decodeDigits_repr n
  rw [h] at hd
  cases n with
  | zero => exact absurd h (by decide)
  | succ m => simp [decodeDigits, List.foldl] at hd

theorem suffixedTitle_data (orig : String) (k : Nat) :
    (suffixedTitle orig k).data = orig.data ++ [' ', '('] ++ (Nat.repr k).data ++ [')'] := by
  simp [suffixedTitle, String.data_append]

theorem pyLower_suffixedTitle_inj {orig : String} {k j : Nat}
    (h : pyLower (suffixedTitle orig k) = pyLower (suffixedTitle orig j)) : k = j := by
  have hd := congrArg String.data h
  rw [pyLower_data, pyLower_data, suffixedTitle_data, suffixedTitle_data] at hd
  simp only [List.map_append] at hd
  have hmk := List.append_cancel_left (List.append_cancel_right hd)
  rw [map_toLower_repr, map_toLower_repr] at hmk
  exact repr_injective_nat (String.ext hmk)

theorem suffixedTitle_data_length (orig : String) (k : Nat) :
    (suffixedTitle orig k).data.length = orig.data.length + 3 + (Nat.repr k).data.length := by
  simp [suffixedTitle_data, List.length_append]
  omega

theorem pyLower_ne_suffixed {s orig : String} (k : Nat)
    (hlen : s.data.length = orig.data.length) :
    (pyLower s == pyLower (suffixedTitle orig k)) = false := by
  rw [beq_eq_false_iff_ne]
  intro h
  have h1 := data_length_of_pyLower_eq h
  have h2 : 1 ≤ (Nat.repr k).data.length :=
    List.length_pos.mpr (repr_data_ne_nil k)
  rw [suffixedTitle_data_length] at h1
  omega

theorem pyLower_suffixed_ne_suffixed {s orig : String} {k j : Nat}
    (h : pyLower s = pyLower (suffixedTitle orig k)) (hkj : k ≠ j) :
    (pyLower s == pyLower (suffixedTitle orig j)) = false := by
  rw [beq_eq_false_iff_ne]
  intro h2
  exact hkj (pyLower_suffixedTitle_inj (h.symm.trans h2))

theorem exists_free_suffix (store : List Todo) (uid : Nat) (orig : String) :
    ∃ k, 2 ≤ k ∧ k ≤ (ownerTodos store uid).length + 2 ∧
      hasTitle store uid (suffixedTitle orig k) = false := by
  by_contra hall
  push_neg at hall
  have htaken : ∀ k, 2 ≤ k → k ≤ (ownerTodos store uid).length + 2 →
      pyLower (suffixedTitle orig k) ∈ (ownerTodos store uid).map (fun t => pyLower t.title) := by
    intro k h2 hk
    have hb : hasTitle store uid (suffixedTitle orig k) = true := by
      cases hcase : hasTitle store uid (suffixedTitle orig k)
      · exact absurd hcase (hall k h2 hk)
      · rfl
    rw [hasTitle, List.any_eq_true] at hb
    obtain ⟨t, htm, hp⟩ := hb
    rw [Bool.and_eq_true, beq_iff_eq, beq_iff_eq] at hp
    refine List.mem_map.mpr ⟨t, ?_, hp.1⟩
    exact List.mem_filter.mpr ⟨htm, beq_iff_eq.mpr hp.2⟩
  have hinj : Set.InjOn (fun k => pyLower (suffixedTitle orig k))
      (Finset.Icc 2 ((ownerTodos store uid).length + 2)) := by
    intro a _ b _ hab
    exact pyLower_suffixedTitle_inj hab
  have hcard1 := Finset.card_image_of_injOn hinj
  rw [Nat.card_Icc] at hcard1
  have hsub : (Finset.Icc 2 ((ownerTodos store uid).length + 2)).image
      (fun k => pyLower (suffixedTitle orig k)) ⊆
      ((ownerTodos store uid).map (fun t => pyLower t.title)).toFinset := by
    intro s hs
    rw [Finset.mem_image] at hs
    obtain ⟨k, hkmem, rfl⟩ := hs
    rw [Finset.mem_Icc] at hkmem
    rw [List.mem_toFinset]
    exact htaken k hkmem.1 hkmem.2
  have hcard2 : ((ownerTodos store uid).map (fun t => pyLower t.title)).toFinset.card ≤
      (ownerTodos store uid).length := by
    calc ((ownerTodos store uid).map (fun t => pyLower t.title)).toFinset.card
        ≤ ((ownerTodos store uid).map (fun t => pyLower t.title)).length :=
          List.toFinset_card_le _
      _ = (ownerTodos store uid).length := List.length_map _ _
  have hle := Finset.card_le_card hsub
  omega

theorem suffixSearch_spec (store : List Todo) (uid : Nat) (orig : String) :
    ∀ (fuel counter : Nat),
      (∃ k, counter ≤ k ∧ k < counter + fuel ∧ hasTitle store uid (suffixedTitle orig k) = false) →
      ∃ kmin, counter ≤ kmin ∧
        hasTitle store uid (suffixedTitle orig kmin) = false ∧
        (∀ j, counter ≤ j → j < kmin → hasTitle store uid (suffixedTitle orig j) = true) ∧
        suffixSearch store uid orig fuel counter = some (suffixedTitle orig kmin) := by
  intro fuel
  induction fuel with
  | zero =>
    intro c hex
    obtain ⟨k, h1, h2, _⟩ := hex
    omega
  | succ f ih =>
    intro c hex
    by_cases hc : hasTitle store uid (suffixedTitle orig c) = true
    · obtain ⟨k, hk1, hk2, hk3⟩ := hex
      have hkc : k ≠ c := by
        intro h
        rw [h, hc] at hk3
        exact Bool.noConfusion hk3
      obtain ⟨kmin, hm1, hm2, hm3, hm4⟩ := ih (c + 1) ⟨k, by omega, by omega, hk3⟩
      refine ⟨kmin, by omega, hm2, ?_, ?_⟩
      · intro j hj1 hj2
        rcases Nat.eq_or_lt_of_le hj1 with h | h
        · rw [← h]; exact hc
        · exact hm3 j h hj2
      · simp only [suffixSearch]
        rw [if_pos hc]
        exact hm4
    · have hcf : hasTitle store uid (suffixedTitle orig c) = false := by
        cases h : hasTitle store uid (suffixedTitle orig c)
        · rfl
        · exact absurd h hc
      refine ⟨c, Nat.le_refl c, hcf, ?_, ?_⟩
      · intro j h1 h2; omega
      · simp only [suffixSearch]
        rw [if_neg hc]

theorem suffixSearch_allocates (store : List Todo) (uid : Nat) (orig : String) :
    ∃ kmin, 2 ≤ kmin ∧
      hasTitle store uid (suffixedTitle orig kmin) = false ∧
      (∀ j, 2 ≤ j → j < kmin → hasTitle store uid (suffixedTitle orig j) = true) ∧
      suffixSearch store uid orig (store.length + 1) 2 = some (suffixedTitle orig kmin) := by
  obtain ⟨k, h2, hk, hfree⟩ := exists_free_suffix store uid orig
  have hlen : (ownerTodos store uid).length ≤ store.length := List.length_filter_le _ store
  exact suffixSearch_spec store uid orig (store.length + 1) 2 ⟨k, h2, by omega, hfree⟩

theorem hasTitle_append (s1 s2 : List Todo) (uid : Nat) (s : String) :
    hasTitle (s1 ++ s2) uid s = (hasTitle s1 uid s || hasTitle s2 uid s) := by
  simp [hasTitle, List.any_append]

theorem hasTitle_singleton (t : Todo) (uid : Nat) (s : String) :
    hasTitle [t] uid s = (pyLower t.title == pyLower s && t.owner_id == uid) := by
  simp [hasTitle]

theorem suffixedTitle_two (T : String) : suffixedTitle T 2 = T ++ " (2)" := by
  apply String.ext
  rw [suffixedTitle_data, String.data_append]
  have h1 : (Nat.repr 2).data = ['2'] := by decide
  have h2 : (" (2)" : String).data = [' ', '(', '2', ')'] := by decide
  rw [h1, h2]
  simp

theorem suffixedTitle_three (T : String) : suffixedTitle T 3 = T ++ " (3)" := by
  apply String.ext
  rw [suffixedTitle_data, String.data_append]
  have h1 : (Nat.repr 3).data = ['3'] := by decide
  have h2 : (" (3)" : String).data = [' ', '(', '3', ')'] := by decide
  rw [h1, h2]
  simp

theorem self_ne_suffixedTitle (T : String) (k : Nat) : T ≠ suffixedTitle T k := by
  intro h
  have h1 : T.data.length = (suffixedTitle T k).data.length :=
    congrArg (fun s => s.data.length) h
  rw [suffixedTitle_data_length] at h1
  have h2 := List.length_pos.mpr (repr_data_ne_nil k)
  omega

theorem suffixedTitle_ne_suffixedTitle (T : String) {k j : Nat} (h : k ≠ j) :
    suffixedTitle T k ≠ suffixedTitle T j := by
  intro heq
  exact h (pyLower_suffixedTitle_inj (congrArg pyLower heq))

theorem create_user_todo_fresh {store : List Todo} {tc : TodoCreate} {uid nid : Nat}
    (h : hasTitle store uid tc.title = false) :
    create_user_todo store tc uid nid =
      some (mkRow tc uid nid tc.title, store ++ [mkRow tc uid nid tc.title]) := by
  simp [create_user_todo, allocateUniqueTitle, h]

theorem create_user_todo_free2 {store : List Todo} {tc : TodoCreate} {uid nid : Nat}
    (h1 : hasTitle store uid tc.title = true)
    (h2 : hasTitle store uid (suffixedTitle tc.title 2) = false) :
    create_user_todo store tc uid nid =
      some (mkRow tc uid nid (suffixedTitle tc.title 2),
            store ++ [mkRow tc uid nid (suffixedTitle tc.title 2)]) := by
  obtain ⟨kmin, hk2, hfree, hmin, heq⟩ := suffixSearch_allocates store uid tc.title
  have hkm : kmin = 2 := by
    by_contra hne
    have := hmin 2 (by omega) (by omega)
    rw [h2] at this
    exact Bool.noConfusion this
  subst hkm
  simp [create_user_todo, allocateUniqueTitle, h1, heq]

theorem create_user_todo_taken2_free3 {store : List Todo} {tc : TodoCreate} {uid nid : Nat}
    (h1 : hasTitle store uid tc.title = true)
    (h2 : hasTitle store uid (suffixedTitle tc.title 2) = true)
    (h3 : hasTitle store uid (suffixedTitle tc.title 3) = false) :
    create_user_todo store tc uid nid =
      some (mkRow tc uid nid (suffixedTitle tc.title 3),
            store ++ [mkRow tc uid nid (suffixedTitle tc.title 3)]) := by
  obtain ⟨kmin, hk2, hfree, hmin, heq⟩ := suffixSearch_allocates store uid tc.title
  have hne2 : kmin ≠ 2 := by
    intro h
    rw [h, h2] at hfree
    exact Bool.noConfusion hfree
  have hkm : kmin = 3 := by
    by_contra hne
    have h4 : 3 < kmin := by omega
    have := hmin 3 (by omega) h4
    rw [h3] at this
    exact Bool.noConfusion this
  subst hkm
  simp [create_user_todo, allocateUniqueTitle, h1, heq]

theorem allocateUniqueTitle_free2 {store : List Todo} {uid : Nat} {T : String}
    (h1 : hasTitle store uid T = true)
    (h2 : hasTitle store uid (suffixedTitle T 2) = false) :
    allocateUniqueTitle store uid T = some (suffixedTitle T 2) := by
  obtain ⟨kmin, hk2, hfree, hmin, heq⟩ := suffixSearch_allocates store uid T
  have hkm : kmin = 2 := by
    by_contra hne
    have := hmin 2 (by omega) (by omega)
    rw [h2] at this
    exact Bool.noConfusion this
  subst hkm
  rw [allocateUniqueTitle, if_pos h1, heq]

theorem allocateUniqueTitle_taken2_free3 {store : List Todo} {uid : Nat} {T : String}
    (h1 : hasTitle store uid T = true)
    (h2 : hasTitle store uid (suffixedTitle T 2) = true)
    (h3 : hasTitle store uid (suffixedTitle T 3) = false) :
    allocateUniqueTitle store uid T = some (suffixedTitle T 3) := by
  obtain ⟨kmin, hk2, hfree, hmin, heq⟩ := suffixSearch_allocates store uid T
  have hne2 : kmin ≠ 2 := by
    intro h
    rw [h, h2] at hfree
    exact Bool.noConfusion hfree
  have hkm : kmin = 3 := by
    by_contra hne
    have := hmin 3 (by omega) (by omega)
    rw [h3] at this
    exact Bool.noConfusion this
  subst hkm
  rw [allocateUniqueTitle, if_pos h1, heq]

/-- C1 (amended).  For every owner and requested title with no case-insensitive
match and with the first two suffixed candidates free, three successive creates
of the same requested title store the requested title, then the requested
title suffixed with " (2)", then with " (3)", all three distinct.  The suffix
is appended to the requested title with its own casing: creating
buy milk when Buy milk already exists stores "buy milk (2)". -/
theorem claim_C1_amended (store : List Todo) (uid : Nat) (tc : TodoCreate) (n1 n2 n3 : Nat)
    (h0 : hasTitle store uid tc.title = false)
    (h2 : hasTitle store uid (tc.title ++ " (2)") = false)
    (h3 : hasTitle store uid (tc.title ++ " (3)") = false) :
    ∃ r1 s1 r2 s2 r3 s3,
      create_user_todo store tc uid n1 = some (r1, s1) ∧ r1.title = tc.title ∧
      create_user_todo s1 tc uid n2 = some (r2, s2) ∧ r2.title = tc.title ++ " (2)" ∧
      create_user_todo s2 tc uid n3 = some (r3, s3) ∧ r3.title = tc.title ++ " (3)" ∧
      r1.title ≠ r2.title ∧ r1.title ≠ r3.title ∧ r2.title ≠ r3.title := by
  rw [← suffixedTitle_two] at h2
  rw [← suffixedTitle_three] at h3
  have e1 := @create_user_todo_fresh store tc uid n1 h0
  have ht1 : hasTitle (store ++ [mkRow tc uid n1 tc.title]) uid tc.title = true := by
    rw [hasTitle_append, hasTitle_singleton, h0]
    simp [mkRow]
  have hf2 : hasTitle (store ++ [mkRow tc uid n1 tc.title]) uid (suffixedTitle tc.title 2) = false := by
    rw [hasTitle_append, hasTitle_singleton, h2]
    simp [mkRow, @pyLower_ne_suffixed tc.title tc.title 2 rfl]
  have e2 := @create_user_todo_free2 (store ++ [mkRow tc uid n1 tc.title]) tc uid n2 ht1 hf2
  have ht2 : hasTitle ((store ++ [mkRow tc uid n1 tc.title]) ++
      [mkRow tc uid n2 (suffixedTitle tc.title 2)]) uid tc.title = true := by
    rw [hasTitle_append, ht1]
    simp
  have htk2 : hasTitle ((store ++ [mkRow tc uid n1 tc.title]) ++
      [mkRow tc uid n2 (suffixedTitle tc.title 2)]) uid (suffixedTitle tc.title 2) = true := by
    rw [hasTitle_append, hasTitle_singleton]
    simp [mkRow]
  have hf3 : hasTitle ((store ++ [mkRow tc uid n1 tc.title]) ++
      [mkRow tc uid n2 (suffixedTitle tc.title 2)]) uid (suffixedTitle tc.title 3) = false := by
    rw [hasTitle_append, hasTitle_append, hasTitle_singleton, hasTitle_singleton, h3]
    simp [mkRow, @pyLower_ne_suffixed tc.title tc.title 3 rfl,
      @pyLower_suffixed_ne_suffixed (suffixedTitle tc.title 2) tc.title 2 3 rfl (by omega)]
  have e3 := @create_user_todo_taken2_free3
    ((store ++ [mkRow tc uid n1 tc.title]) ++ [mkRow tc uid n2 (suffixedTitle tc.title 2)])
    tc uid n3 ht2 htk2 hf3
  refine ⟨_, _, _, _, _, _, e1, rfl, e2, ?_, e3, ?_, ?_, ?_, ?_⟩
  · simp [mkRow, suffixedTitle_two]
  · simp [mkRow, suffixedTitle_three]
  · simp only [mkRow]
    exact self_ne_suffixedTitle tc.title 2
  · simp only [mkRow]
    exact self_ne_suffixedTitle tc.title 3
  · simp only [mkRow]
    exact suffixedTitle_ne_suffixedTitle tc.title (by omega)

/-- C1 witness: from an empty store, three creates of Buy milk store
Buy milk, Buy milk (2), Buy milk (3). -/
theorem claim_C1_witness :
    ∃ r1 s1 r2 s2 r3 s3,
      create_user_todo [] { title := "Buy milk" } 7 1 = some (r1, s1) ∧ r1.title = "Buy milk" ∧
      create_user_todo s1 { title := "Buy milk" } 7 2 = some (r2, s2) ∧ r2.title = "Buy milk" ++ " (2)" ∧
      create_user_todo s2 { title := "Buy milk" } 7 3 = some (r3, s3) ∧ r3.title = "Buy milk" ++ " (3)" ∧
      r1.title ≠ r2.title ∧ r1.title ≠ r3.title ∧ r2.title ≠ r3.title :=
  claim_C1_amended [] 7 { title := "Buy milk" } 1 2 3 (by decide) (by decide) (by decide)

/-- C1 counterexample: at the claim's own example input — creating buy milk
when Buy milk already exists — the stored title is "buy milk (2)", not the
claimed "Buy milk (2)". -/
theorem claim_C1_counterexample :
    ((create_user_todo [{ id := 1, title := "Buy milk", owner_id := 7 }]
        { title := "buy milk" } 7 2).map (fun p => p.1.title)) = some ("buy milk (2)") ∧
    ((create_user_todo [{ id := 1, title := "Buy milk", owner_id := 7 }]
        { title := "buy milk" } 7 2).map (fun p => p.1.title)) ≠ some ("Buy milk (2)") := by
  decide

/-- C2 (amended).  When the owner has case-insensitive matches for both T and
"T (2)" and neither "T (3)" nor "T (2) (2)" is taken: allocation for requested
title T skips the taken suffix 2 and returns "T (3)" (a taken suffix is never
reused), while allocation for requested title "T (2)" appends the counter to
the requested string itself and returns "T (2) (2)", not "T (3)". -/
theorem claim_C2_amended (store : List Todo) (uid : Nat) (T : String)
    (h1 : hasTitle store uid T = true)
    (h2 : hasTitle store uid (T ++ " (2)") = true)
    (h3 : hasTitle store uid (T ++ " (3)") = false)
    (h4 : hasTitle store uid (T ++ " (2) (2)") = false) :
    allocateUniqueTitle store uid T = some (T ++ " (3)") ∧
    allocateUniqueTitle store uid (T ++ " (2)") = some (T ++ " (2) (2)") := by
  have happ : suffixedTitle (T ++ " (2)") 2 = T ++ " (2) (2)" := by
    rw [suffixedTitle_two]
    apply String.ext
    have ha : (" (2)" : String).data = [' ', '(', '2', ')'] := by decide
    have hb : (" (2) (2)" : String).data = [' ', '(', '2', ')', ' ', '(', '2', ')'] := by decide
    simp [String.data_append, ha, hb]
  constructor
  · rw [← suffixedTitle_three]
    refine allocateUniqueTitle_taken2_free3 h1 ?_ ?_
    · rw [suffixedTitle_two]; exact h2
    · rw [suffixedTitle_three]; exact h3
  · rw [← happ]
    refine allocateUniqueTitle_free2 h2 ?_
    rw [happ]
    exact h4

/-- C2 witness: with tasks T and T (2), allocation for T returns T (3) and
allocation for T (2) returns T (2) (2). -/
theorem claim_C2_witness :
    allocateUniqueTitle [{ id := 1, title := "T", owner_id := 1 },
      { id := 2, title := "T (2)", owner_id := 1 }] 1 "T" = some ("T" ++ " (3)") ∧
    allocateUniqueTitle [{ id := 1, title := "T", owner_id := 1 },
      { id := 2, title := "T (2)", owner_id := 1 }] 1 ("T" ++ " (2)") = some ("T" ++ " (2) (2)") :=
  claim_C2_amended [{ id := 1, title := "T", owner_id := 1 },
    { id := 2, title := "T (2)", owner_id := 1 }] 1 "T" (by decide) (by decide) (by decide) (by decide)

/-- C2 counterexample: with tasks T and T (2) in the store, allocation for the
requested title "T (2)" returns "T (2) (2)", not the claimed "T (3)". -/
theorem claim_C2_counterexample :
    allocateUniqueTitle [{ id := 1, title := "T", owner_id := 1 },
      { id := 2, title := "T (2)", owner_id := 1 }] 1 "T (2)" = some ("T (2) (2)") ∧
    ("T (2) (2)" : String) ≠ "T (3)" := by
  decide

/-- C9.  For every store, owner and requested title, the suffix loop run with
the fuel create_user_todo needs terminates: some counter at least 2 yields a
free candidate, every smaller counter from 2 on is taken, and the loop returns
exactly that first free candidate. -/
theorem claim_C9 (store : List Todo) (uid : Nat) (orig : String) :
    ∃ kmin, 2 ≤ kmin ∧
      hasTitle store uid (suffixedTitle orig kmin) = false ∧
      (∀ j, 2 ≤ j → j < kmin → hasTitle store uid (suffixedTitle orig j) = true) ∧
      suffixSearch store uid orig (store.length + 1) 2 = some (suffixedTitle orig kmin) :=
  suffixSearch_allocates store uid orig

/-- C9 witness: the loop terminates on a concrete store. -/
theorem claim_C9_witness :
    ∃ kmin, 2 ≤ kmin ∧
      hasTitle [{ id := 1, title := "a", owner_id := 4 }] 4 (suffixedTitle "a" kmin) = false ∧
      (∀ j, 2 ≤ j → j < kmin →
        hasTitle [{ id := 1, title := "a", owner_id := 4 }] 4 (suffixedTitle "a" j) = true) ∧
      suffixSearch [{ id := 1, title := "a", owner_id := 4 }] 4 "a" 2 2 =
        some (suffixedTitle "a" kmin) :=
  claim_C9 [{ id := 1, title := "a", owner_id := 4 }] 4 "a"

theorem prefixB_append_self (n m : List Char) : prefixB n (n ++ m) = true := by
  induction n with
  | nil => rfl
  | cons a t ih => simp [prefixB, ih]

theorem infixB_nil_needle (h : List Char) : infixB [] h = true := by
  induction h with
  | nil => rfl
  | cons a t ih => simp [infixB, prefixB]

theorem infixB_append_left (n x h : List Char) (hi : infixB n h = true) :
    infixB n (x ++ h) = true := by
  induction x with
  | nil => simpa using hi
  | cons a t ih => simp [infixB, ih]

theorem infixB_self_append (n m : List Char) : infixB n (n ++ m) = true := by
  cases n with
  | nil => simpa using infixB_nil_needle m
  | cons a t => simp [infixB, prefixB, prefixB_append_self]

theorem infixB_of_mem_join (sep : String) (l : List String) :
    ∀ x : String, x ∈ l → infixB x.data (pyJoin sep l).data = true := by
  induction l with
  | nil =>
    intro x hx
    cases hx
  | cons a t ih =>
    intro x hx
    cases t with
    | nil =>
      rw [List.mem_singleton.mp hx]
      simpa using infixB_self_append a.data []
    | cons b t2 =>
      rcases List.mem_cons.mp hx with rfl | hx2
      · rw [pyJoin]
        simp only [String.data_append, List.append_assoc]
        exact infixB_self_append _ _
      · rw [pyJoin]
        simp only [String.data_append, List.append_assoc]
        exact infixB_append_left _ _ _ (infixB_append_left _ _ _ (ih x hx2))

theorem disambiguation_quotes (orig : String) (titles : List String) (s : String)
    (hs : s ∈ titles) :
    infixB ("'" ++ s ++ "'").data (disambiguationMsg orig titles).data = true := by
  have hmem : ("'" ++ s ++ "'") ∈ titles.map (fun t => "'" ++ t ++ "'") :=
    List.mem_map.mpr ⟨s, hs, rfl⟩
  have hj := infixB_of_mem_join (", ") (titles.map (fun t => "'" ++ t ++ "'")) _ hmem
  rw [disambiguationMsg]
  simp only [String.data_append]
  exact infixB_append_left _ _ _ hj

/-- C3.  A partial update through crud.update_user_todo whose new title
collides case-insensitively with a different task of the same owner is not
blocked: the row is found, the title is set verbatim (no suffix), every other
supplied field is applied and unsupplied fields keep their values. -/
theorem claim_C3 (store : List Todo) (id uid : Nat) (u : TodoUpdate) (t other : Todo)
    (newT : String)
    (hfind : store.find? (fun x => x.id == id && x.owner_id == uid) = some t)
    (htitle : u.title = some newT)
    (hmem : other ∈ store) (ho1 : other.owner_id = uid) (ho2 : other.id ≠ t.id)
    (ho3 : pyLower other.title = pyLower newT) (ho4 : pyLower t.title ≠ pyLower newT) :
    ∃ t' store', update_user_todo store id (.model u) uid = .ok (t', store') ∧
      t'.title = newT ∧
      t'.completed = u.completed.getD t.completed ∧
      t'.priority = u.priority.getD t.priority ∧
      t'.category = u.category.getD t.category ∧
      t'.description = (match u.description with | some d => some d | none => t.description) ∧
      t'.due_at = (match u.due_at with | some d => some d | none => t.due_at) ∧
      t'.id = t.id ∧ t'.owner_id = t.owner_id ∧
      store' = store.map (fun x => if x.id == id && x.owner_id == uid then t' else x) := by
  refine ⟨applyUpdate t u, _, ?_, ?_, rfl, rfl, rfl, rfl, rfl, rfl, rfl, rfl⟩
  · simp [update_user_todo, hfind, model_dump_exclude_unset]
  · simp [applyUpdate, htitle]

/-- C3 witness: renaming task A to b while a different task B of the same
owner exists succeeds and stores the title b verbatim. -/
theorem claim_C3_witness :
    ∃ t' store',
      update_user_todo [{ id := 1, title := "A", owner_id := 5 },
          { id := 2, title := "B", owner_id := 5 }] 1
          (.model { title := some ("b"), completed := some true }) 5 = .ok (t', store') ∧
      t'.title = "b" ∧ t'.completed = true ∧ t'.priority = "low" ∧ t'.category = "others" ∧
      t'.description = none ∧ t'.due_at = none ∧ t'.id = 1 ∧ t'.owner_id = 5 ∧
      store' = [{ id := 1, title := "A", owner_id := 5 },
          { id := 2, title := "B", owner_id := 5 }].map
          (fun x => if x.id == 1 && x.owner_id == 5 then t' else x) := by
  obtain ⟨t', s', h1, h2, h3, h4, h5, h6, h7, h8, h9, h10⟩ :=
    claim_C3 [{ id := 1, title := "A", owner_id := 5 }, { id := 2, title := "B", owner_id := 5 }]
      1 5 { title := some ("b"), completed := some true }
      { id := 1, title := "A", owner_id := 5 } { id := 2, title := "B", owner_id := 5 } "b"
      (by decide) rfl (by decide) rfl (by decide) (by decide) (by decide)
  exact ⟨t', s', h1, h2, h3, h4, h5, h6, h7, h8, h9, h10⟩

/-- C4.  An update_todo dispatch with a present original_title, valid
priority/category, at least one effective change field, and two or more
case-insensitive matches returns the disambiguation message quoting every
matching title and leaves the store untouched. -/
theorem claim_C4 (store : List Todo) (uid : Nat) (a : UpdateArgs) (ot : String)
    (t1 t2 : Todo) (rest : List Todo)
    (hot : a.original_title = some ot)
    (hp : invalidPriority (updateDataOf a) = false)
    (hc : invalidCategory (updateDataOf a) = false)
    (hne : update_field_names (updateDataOf a) ≠ [])
    (hmatch : get_todos_by_title store ot uid = t1 :: t2 :: rest) :
    execute_todo_action (.update_todo a) store (some uid) =
      (disambiguationMsg ot ((t1 :: t2 :: rest).map (fun x => x.title)), store) ∧
    ∀ t ∈ get_todos_by_title store ot uid,
      infixB ("'" ++ t.title ++ "'").data
        ((execute_todo_action (.update_todo a) store (some uid)).1).data = true := by
  have hrun : execute_todo_action (.update_todo a) store (some uid) =
      (disambiguationMsg ot ((t1 :: t2 :: rest).map (fun x => x.title)), store) := by
    simp [execute_todo_action, hot, hp, hc, hne, hmatch]
  refine ⟨hrun, ?_⟩
  intro t ht
  rw [hrun]
  refine disambiguation_quotes ot _ t.title ?_
  rw [hmatch] at ht
  exact List.mem_map.mpr ⟨t, ht, rfl⟩

/-- C4 witness: marking buy milk complete when both Buy milk and buy milk
exist returns the disambiguation message and mutates nothing. -/
theorem claim_C4_witness :
    execute_todo_action
        (.update_todo { original_title := some ("buy milk"), completed := some true })
        [{ id := 1, title := "Buy milk", owner_id := 2 }, { id := 2, title := "buy milk", owner_id := 2 }]
        (some 2) =
      (disambiguationMsg ("buy milk")
        ([({ id := 1, title := "Buy milk", owner_id := 2 } : Todo),
          ({ id := 2, title := "buy milk", owner_id := 2 } : Todo)].map (fun x => x.title)),
       [{ id := 1, title := "Buy milk", owner_id := 2 }, { id := 2, title := "buy milk", owner_id := 2 }]) ∧
    ∀ t ∈ get_todos_by_title
        [{ id := 1, title := "Buy milk", owner_id := 2 }, { id := 2, title := "buy milk", owner_id := 2 }]
        ("buy milk") 2,
      infixB ("'" ++ t.title ++ "'").data
        ((execute_todo_action
          (.update_todo { original_title := some ("buy milk"), completed := some true })
          [{ id := 1, title := "Buy milk", owner_id := 2 }, { id := 2, title := "buy milk", owner_id := 2 }]
          (some 2)).1).data = true :=
  claim_C4 [{ id := 1, title := "Buy milk", owner_id := 2 }, { id := 2, title := "buy milk", owner_id := 2 }]
    2 { original_title := some ("buy milk"), completed := some true } "buy milk"
    { id := 1, title := "Buy milk", owner_id := 2 } { id := 2, title := "buy milk", owner_id := 2 } []
    rfl rfl rfl (by decide) (by decide)

/-- C10: evaluating the dispatcher at the failing input.  With completed as
the only change field and exactly one matching task, routes/chatbot.py passes
the plain dict clean_update_data to crud.update_user_todo, whose
model_dump call raises AttributeError, so the dispatcher's catch-all answers
the apology string instead of the claimed success message, and nothing is
updated. -/
theorem claim_C10_code_eval :
    execute_todo_action (.update_todo c10_args) c10_store (some 7) =
      ("Sorry, I ran into an unexpected issue.", c10_store) := by
  decide

theorem list_message_form (store : List Todo) (uid : Nat)
    (h : (get_todos store uid 0 100).isEmpty = false) :
    execute_todo_action .list_todos store (some uid) =
      ("Your todos:\n" ++ pyJoin ("\n") ((get_todos store uid 0 100).map todoLine), store) := by
  simp [execute_todo_action, h]

/-- C6 (amended).  For an owner with at most 100 tasks (crud.get_todos default
limit), the list_todos dispatch returns the fixed no-tasks message when the
owner has none, and otherwise the formatted listing rendering exactly the
owner's tasks, each task among the rendered rows and its line contained in
the reply text. -/
theorem claim_C6_amended (store : List Todo) (uid : Nat)
    (hlen : (ownerTodos store uid).length ≤ 100) :
    (ownerTodos store uid = [] →
      execute_todo_action .list_todos store (some uid) =
        ("You have no outstanding todos.", store)) ∧
    (ownerTodos store uid ≠ [] →
      execute_todo_action .list_todos store (some uid) =
        ("Your todos:\n" ++ pyJoin ("\n") ((ownerTodos store uid).map todoLine), store)) ∧
    ∀ t ∈ ownerTodos store uid,
      t ∈ get_todos store uid 0 100 ∧
      infixB (todoLine t).data
        ((execute_todo_action .list_todos store (some uid)).1).data = true := by
  have hget : get_todos store uid 0 100 = ownerTodos store uid := by
    rw [get_todos, List.drop_zero]
    exact List.take_of_length_le hlen
  refine ⟨?_, ?_, ?_⟩
  · intro hempty
    simp [execute_todo_action, hget, hempty]
  · intro hne
    have hie : (get_todos store uid 0 100).isEmpty = false := by
      rw [hget]
      cases hcase : ownerTodos store uid with
      | nil => exact absurd hcase hne
      | cons a l => rfl
    rw [list_message_form store uid hie, hget]
  · intro t ht
    have hne : ownerTodos store uid ≠ [] := by
      intro h
      rw [h] at ht
      cases ht
    have hie : (get_todos store uid 0 100).isEmpty = false := by
      rw [hget]
      cases hcase : ownerTodos store uid with
      | nil => exact absurd hcase hne
      | cons a l => rfl
    refine ⟨by rw [hget]; exact ht, ?_⟩
    have h1 : (execute_todo_action .list_todos store (some uid)).1 =
        "Your todos:\n" ++ pyJoin ("\n") ((get_todos store uid 0 100).map todoLine) := by
      rw [list_message_form store uid hie]
    rw [h1, hget]
    simp only [String.data_append]
    exact infixB_append_left _ _ _
      (infixB_of_mem_join ("\n") _ _ (List.mem_map.mpr ⟨t, ht, rfl⟩))

/-- C6 witness: a one-task owner gets a listing containing that task. -/
theorem claim_C6_witness :
    (ownerTodos [{ id := 1, title := "Buy milk", owner_id := 1 }] 1 = [] →
      execute_todo_action .list_todos [{ id := 1, title := "Buy milk", owner_id := 1 }] (some 1) =
        ("You have no outstanding todos.", [{ id := 1, title := "Buy milk", owner_id := 1 }])) ∧
    (ownerTodos [{ id := 1, title := "Buy milk", owner_id := 1 }] 1 ≠ [] →
      execute_todo_action .list_todos [{ id := 1, title := "Buy milk", owner_id := 1 }] (some 1) =
        ("Your todos:\n" ++ pyJoin ("\n")
            ((ownerTodos [{ id := 1, title := "Buy milk", owner_id := 1 }] 1).map todoLine),
          [{ id := 1, title := "Buy milk", owner_id := 1 }])) ∧
    ∀ t ∈ ownerTodos [{ id := 1, title := "Buy milk", owner_id := 1 }] 1,
      t ∈ get_todos [{ id := 1, title := "Buy milk", owner_id := 1 }] 1 0 100 ∧
      infixB (todoLine t).data
        ((execute_todo_action .list_todos [{ id := 1, title := "Buy milk", owner_id := 1 }]
          (some 1)).1).data = true :=
  claim_C6_amended [{ id := 1, title := "Buy milk", owner_id := 1 }] 1 (by decide)

/-- C6 counterexample: an owner with 101 tasks.  The 101st task is among the
owner's tasks but not among the rows the listing renders — the dispatcher
lists only crud.get_todos' first 100 rows — so the listing does not contain
every one of the owner's tasks. -/
theorem claim_C6_counterexample :
    zzTodo ∈ ownerTodos bigStore 1 ∧
    zzTodo ∉ get_todos bigStore 1 0 100 ∧
    (execute_todo_action .list_todos bigStore (some 1)).1 =
      "Your todos:\n" ++ pyJoin ("\n") ((get_todos bigStore 1 0 100).map todoLine) := by
  refine ⟨by decide, by decide, ?_⟩
  rw [list_message_form bigStore 1 (by decide)]

theorem find?_map_categoryStat (l : List String) (f : String → Nat) (name : String) :
    (l.map (fun c => ({ category := c, count := f c } : CategoryStat))).find?
        (fun cs => cs.category == name) =
      if name ∈ l then some { category := name, count := f name } else none := by
  induction l with
  | nil => simp
  | cons a t ih =>
    simp only [List.map_cons]
    by_cases h : a = name
    · subst h
      have hpos : List.find? (fun cs => cs.category == a)
          (({ category := a, count := f a } : CategoryStat) ::
            List.map (fun c => ({ category := c, count := f c } : CategoryStat)) t) =
          some { category := a, count := f a } := by
        apply List.find?_cons_of_pos
        simp
      rw [hpos]
      simp
    · have hstep : List.find? (fun cs => cs.category == name)
          (({ category := a, count := f a } : CategoryStat) ::
            List.map (fun c => ({ category := c, count := f c } : CategoryStat)) t) =
          List.find? (fun cs => cs.category == name)
            (List.map (fun c => ({ category := c, count := f c } : CategoryStat)) t) := by
        apply List.find?_cons_of_neg
        simp [h]
      rw [hstep, ih]
      have hna : ¬(name = a) := fun he => h he.symm
      by_cases hm : name ∈ t
      · simp [hm, List.mem_cons, hna]
      · simp [hm, List.mem_cons, hna]

theorem category_lookup_group (store : List Todo) (uid : Nat) (name : String) :
    category_lookup (get_tasks_by_category store uid) name =
      ((ownerTodos store uid).filter (fun t => t.category == name)).length := by
  rw [category_lookup, get_tasks_by_category, find?_map_categoryStat]
  by_cases h : name ∈ ((ownerTodos store uid).map (fun t => t.category)).dedup
  · rw [if_pos h]
  · rw [if_neg h]
    have hnone : ∀ t ∈ ownerTodos store uid, ¬((fun t => t.category == name) t = true) := by
      intro t ht hb
      exact h (List.mem_dedup.mpr (List.mem_map.mpr ⟨t, ht, beq_iff_eq.mp hb⟩))
    rw [List.filter_eq_nil_iff.mpr hnone]
    rfl

/-- C5.  The dashboard categories field is exactly the fixed six-entry list
work, personal, shopping, health, education, others, in that order, each entry
carrying the number of the owner's tasks in that category — hence 0 whenever
the owner has none there, and all six 0 for an owner with no tasks. -/
theorem claim_C5 (store : List Todo) (uid : Nat) :
    (get_dashboard_categories store uid).map (fun cs => cs.category) = all_categories ∧
    ∀ cs ∈ get_dashboard_categories store uid,
      cs.count = ((ownerTodos store uid).filter (fun t => t.category == cs.category)).length := by
  constructor
  · rw [get_dashboard_categories, List.map_map]
    have hid : ∀ name ∈ all_categories,
        ((fun cs => cs.category) ∘ (fun name =>
          ({ category := name,
             count := category_lookup (get_tasks_by_category store uid) name } : CategoryStat))) name =
        id name := fun name _ => rfl
    rw [List.map_congr_left hid, List.map_id]
  · intro cs hcs
    rw [get_dashboard_categories] at hcs
    obtain ⟨name, _, rfl⟩ := List.mem_map.mp hcs
    exact category_lookup_group store uid name

/-- C5 witness: a brand-new owner with zero tasks gets the six fixed entries,
every count 0. -/
theorem claim_C5_witness :
    (get_dashboard_categories [] 3).map (fun cs => cs.category) = all_categories ∧
    ∀ cs ∈ get_dashboard_categories [] 3,
      cs.count = ((ownerTodos [] 3).filter (fun t => t.category == cs.category)).length :=
  claim_C5 [] 3

theorem find?_token_filter (tokens : List ResetToken) (tok : String) :
    (tokens.filter (fun rt => rt.token != tok)).find? (fun rt => rt.token == tok) = none := by
  rw [List.find?_eq_none]
  intro rt hrt
  have h2 := (List.mem_filter.mp hrt).2
  intro hb
  rw [bne] at h2
  rw [hb] at h2
  simp at h2

theorem find?_map_pred {α : Type} (g : α → α) (p : α → Bool) (h : ∀ x, p (g x) = p x) :
    ∀ l : List α, (l.map g).find? p = (l.find? p).map g := by
  intro l
  induction l with
  | nil => rfl
  | cons a t ih =>
    simp only [List.map_cons]
    by_cases hp : p a = true
    · rw [List.find?_cons_of_pos _ (by rw [h]; exact hp), List.find?_cons_of_pos _ hp]
      rfl
    · rw [List.find?_cons_of_neg _ (by rw [h]; exact hp), List.find?_cons_of_neg _ hp, ih]

theorem reset_confirm_no_token (st : AuthState) (tok pw : String) (now : Int)
    (h : st.tokens.find? (fun r => r.token == tok) = none) :
    reset_password_confirm st tok pw now = (.badRequest ("Invalid or expired token"), st) := by
  simp only [reset_password_confirm, h]

/-- C7.  A reset token is usable exactly once: a confirm with an existing
unexpired token answers 204, replaces the owning user's digest with the hash
of the new password and deletes the token, so a second confirm with the same
token is rejected with the invalid/expired error and changes nothing; a
confirm with an expired token deletes that token, is rejected with the same
error, and touches no user row. -/
theorem claim_C7 :
    (∀ (st : AuthState) (tok pw pw' : String) (now now' : Int) (rt : ResetToken) (u : UserRec),
      st.tokens.find? (fun r => r.token == tok) = some rt →
      ¬(rt.expires_at < now) →
      st.users.find? (fun x => x.id == rt.user_id) = some u →
      (reset_password_confirm st tok pw now).1 = .noContent ∧
      ((reset_password_confirm st tok pw now).2.users.find? (fun x => x.id == rt.user_id)) =
        some { u with hashed_password := get_password_hash pw } ∧
      ((reset_password_confirm st tok pw now).2.tokens.find? (fun r => r.token == tok)) = none ∧
      (reset_password_confirm (reset_password_confirm st tok pw now).2 tok pw' now').1 =
        .badRequest ("Invalid or expired token") ∧
      (reset_password_confirm (reset_password_confirm st tok pw now).2 tok pw' now').2 =
        (reset_password_confirm st tok pw now).2) ∧
    (∀ (st : AuthState) (tok pw : String) (now : Int) (rt : ResetToken),
      st.tokens.find? (fun r => r.token == tok) = some rt →
      rt.expires_at < now →
      (reset_password_confirm st tok pw now).1 = .badRequest ("Invalid or expired token") ∧
      (reset_password_confirm st tok pw now).2.tokens.find? (fun r => r.token == tok) = none ∧
      (reset_password_confirm st tok pw now).2.users = st.users) := by
  constructor
  · intro st tok pw pw' now now' rt u hfind hnex hufind
    have hstep : reset_password_confirm st tok pw now =
        (.noContent,
         { st with
            users := st.users.map (fun x =>
              if x.id == rt.user_id then { x with hashed_password := get_password_hash pw } else x),
            tokens := st.tokens.filter (fun r => r.token != tok) }) := by
      simp only [reset_password_confirm, hfind]
      rw [if_neg hnex]
      simp only [hufind]
    have hpu := List.find?_some hufind
    have hpres : ∀ x : UserRec,
        ((if x.id == rt.user_id then { x with hashed_password := get_password_hash pw } else x).id ==
          rt.user_id) = (x.id == rt.user_id) := by
      intro x
      by_cases hx : (x.id == rt.user_id) = true <;> simp [hx]
    have hfound : ((reset_password_confirm st tok pw now).2.users.find?
        (fun x => x.id == rt.user_id)) = some { u with hashed_password := get_password_hash pw } := by
      rw [hstep]
      show ((st.users.map (fun x =>
          if x.id == rt.user_id then { x with hashed_password := get_password_hash pw } else x)).find?
          (fun x => x.id == rt.user_id)) = _
      rw [find?_map_pred _ _ hpres st.users, hufind]
      simp only [Option.map_some']
      rw [if_pos hpu]
    have hgone : ((reset_password_confirm st tok pw now).2.tokens.find?
        (fun r => r.token == tok)) = none := by
      rw [hstep]
      exact find?_token_filter st.tokens tok
    have hsecond : reset_password_confirm (reset_password_confirm st tok pw now).2 tok pw' now' =
        (.badRequest ("Invalid or expired token"), (reset_password_confirm st tok pw now).2) :=
      reset_confirm_no_token _ tok pw' now' hgone
    refine ⟨by rw [hstep], hfound, hgone, by rw [hsecond], by rw [hsecond]⟩
  · intro st tok pw now rt hfind hexp
    have hstep : reset_password_confirm st tok pw now =
        (.badRequest ("Invalid or expired token"),
         { st with tokens := st.tokens.filter (fun r => r.token != tok) }) := by
      simp only [reset_password_confirm, hfind]
      rw [if_pos hexp]
    refine ⟨by rw [hstep], ?_, by rw [hstep]⟩
    rw [hstep]
    exact find?_token_filter st.tokens tok

/-- C7 witness: one user, one token valid until 1000 confirmed at 500, then
retried at 600; and an expired token (100, confirmed at 500). -/
theorem claim_C7_witness :
    ((reset_password_confirm
        { users := [{ id := 1, username := "alice", email := "a@x.com", hashed_password := "h0" }],
          tokens := [{ user_id := 1, token := "tk1", expires_at := 1000 }] } "tk1" "npw" 500).1 =
        .noContent ∧
      ((reset_password_confirm
        { users := [{ id := 1, username := "alice", email := "a@x.com", hashed_password := "h0" }],
          tokens := [{ user_id := 1, token := "tk1", expires_at := 1000 }] } "tk1" "npw" 500).2.users.find?
          (fun x => x.id == 1)) =
        some { id := 1, username := "alice", email := "a@x.com",
               hashed_password := get_password_hash "npw" } ∧
      ((reset_password_confirm
        { users := [{ id := 1, username := "alice", email := "a@x.com", hashed_password := "h0" }],
          tokens := [{ user_id := 1, token := "tk1", expires_at := 1000 }] } "tk1" "npw" 500).2.tokens.find?
          (fun r => r.token == "tk1")) = none ∧
      (reset_password_confirm
        (reset_password_confirm
          { users := [{ id := 1, username := "alice", email := "a@x.com", hashed_password := "h0" }],
            tokens := [{ user_id := 1, token := "tk1", expires_at := 1000 }] } "tk1" "npw" 500).2
        "tk1" "npw2" 600).1 = .badRequest ("Invalid or expired token") ∧
      (reset_password_confirm
        (reset_password_confirm
          { users := [{ id := 1, username := "alice", email := "a@x.com", hashed_password := "h0" }],
            tokens := [{ user_id := 1, token := "tk1", expires_at := 1000 }] } "tk1" "npw" 500).2
        "tk1" "npw2" 600).2 =
        (reset_password_confirm
          { users := [{ id := 1, username := "alice", email := "a@x.com", hashed_password := "h0" }],
            tokens := [{ user_id := 1, token := "tk1", expires_at := 1000 }] } "tk1" "npw" 500).2) ∧
    ((reset_password_confirm
        { users := [], tokens := [{ user_id := 1, token := "tk2", expires_at := 100 }] }
        "tk2" "x" 500).1 = .badRequest ("Invalid or expired token") ∧
      ((reset_password_confirm
        { users := [], tokens := [{ user_id := 1, token := "tk2", expires_at := 100 }] }
        "tk2" "x" 500).2.tokens.find? (fun r => r.token == "tk2")) = none ∧
      (reset_password_confirm
        { users := [], tokens := [{ user_id := 1, token := "tk2", expires_at := 100 }] }
        "tk2" "x" 500).2.users = []) :=
  ⟨claim_C7.1
      { users := [{ id := 1, username := "alice", email := "a@x.com", hashed_password := "h0" }],
        tokens := [{ user_id := 1, token := "tk1", expires_at := 1000 }] }
      "tk1" "npw" "npw2" 500 600 { user_id := 1, token := "tk1", expires_at := 1000 }
      { id := 1, username := "alice", email := "a@x.com", hashed_password := "h0" }
      (by decide) (by decide) (by decide),
    claim_C7.2
      { users := [], tokens := [{ user_id := 1, token := "tk2", expires_at := 100 }] }
      "tk2" "x" 500 { user_id := 1, token := "tk2", expires_at := 100 }
      (by decide) (by decide)⟩

/-- C8.  Forgot-password answers 200 with the one fixed message whether or not
the email belongs to a registered user, so the response does not reveal
registration status. -/
theorem claim_C8 (st1 st2 : AuthState) (e1 e2 tok1 tok2 : String) (now1 now2 : Int)
    (h1 : (st1.users.find? (fun u => u.email == e1)).isSome = true)
    (h2 : st2.users.find? (fun u => u.email == e2) = none) :
    (forgot_password st1 e1 tok1 now1).1 =
      (200, "If your email is registered, a password reset link has been sent.") ∧
    (forgot_password st2 e2 tok2 now2).1 =
      (200, "If your email is registered, a password reset link has been sent.") ∧
    (forgot_password st1 e1 tok1 now1).1 = (forgot_password st2 e2 tok2 now2).1 := by
  obtain ⟨u, hu⟩ := Option.isSome_iff_exists.mp h1
  have ha : (forgot_password st1 e1 tok1 now1).1 =
      (200, "If your email is registered, a password reset link has been sent.") := by
    simp only [forgot_password, hu]
  have hb : (forgot_password st2 e2 tok2 now2).1 =
      (200, "If your email is registered, a password reset link has been sent.") := by
    simp only [forgot_password, h2]
  exact ⟨ha, hb, ha.trans hb.symm⟩

/-- C8 witness: a registered email and an unknown one get the same response. -/
theorem claim_C8_witness :
    (forgot_password
      { users := [{ id := 1, username := "alice", email := "a@x.com", hashed_password := "h" }],
        tokens := [] } "a@x.com" "t1" 0).1 =
      (200, "If your email is registered, a password reset link has been sent.") ∧
    (forgot_password { users := [], tokens := [] } "ghost@x.com" "t2" 0).1 =
      (200, "If your email is registered, a password reset link has been sent.") ∧
    (forgot_password
      { users := [{ id := 1, username := "alice", email := "a@x.com", hashed_password := "h" }],
        tokens := [] } "a@x.com" "t1" 0).1 =
      (forgot_password { users := [], tokens := [] } "ghost@x.com" "t2" 0).1 :=
  claim_C8
    { users := [{ id := 1, username := "alice", email := "a@x.com", hashed_password := "h" }],
      tokens := [] }
    { users := [], tokens := [] } "a@x.com" "ghost@x.com" "t1" "t2" 0 0 (by decide) (by decide)
